import Mathlib

/-
Verification development for the glyphc6_zb_ha plant monitor firmware
(deep-sleep variant).  The definitions below are a shallow embedding of the
wake-cycle orchestrator (src/main/main.c), the sleep scheduler and persistent
RTC state (src/main/deep_sleep.c), the soil-sensor adapter
(src/main/soil_sensor.c), the battery adapter (battery_monitoring.c) and the
attribute-scaling layer (src/main/zigbee_core.c).

Modelling conventions:
- C float arithmetic is modelled by exact rational arithmetic over the
  rationals; every numeric claim below concerns values at which the float
  computations are exact or concerns which samples enter an average, not
  rounding.
- Machine integers are Nat or Int with explicit reduction modulo powers of
  two where the C code can wrap (u32 counters, u64 timestamp subtraction).
- Fallible hardware I/O (I2C transactions, ADC reads) appears as Option
  valued inputs supplied by an environment: some means the underlying
  call returned ESP_OK with that decoded value, none means it failed.
- FreeRTOS ticks are modelled in milliseconds (pdMS_TO_TICKS is the
  identity at the model level); the tick counter observed at the start of
  each loop iteration is supplied by the environment and is constrained
  only where a theorem needs the monotone-clock fact that
  vTaskDelay(1000 ms) advances the counter by at least 1000.
-/

-- ===========================================================================
-- Configuration constants (deep_sleep.h, system_config.h)
-- ===========================================================================

/-- SLEEP_INTERVAL_SEC in deep_sleep.h: 3600 seconds between readings. -/
def SLEEP_INTERVAL_SEC : Nat := 3600

/-- The read interval in microseconds, as computed in
deep_sleep_should_read_sensors: (uint64)SLEEP_INTERVAL_SEC * 1000000ULL. -/
def READ_INTERVAL_US : Nat := SLEEP_INTERVAL_SEC * 1000000

/-- WAKE_TIME_MS in deep_sleep.h: stay awake for at most 60000 ms. -/
def WAKE_TIME_MS : Nat := 60000

/-- max_join_wait in wake_cycle_task: pdMS_TO_TICKS(30000). -/
def MAX_JOIN_WAIT_MS : Nat := 30000

/-- NUM_SENSOR_SAMPLES in deep_sleep.h: 5 samples per wake episode. -/
def NUM_SENSOR_SAMPLES : Nat := 5

/-- SOIL_VALUE_DRY in system_config.h (sensor in air). -/
def SOIL_VALUE_DRY : ℚ := 329

/-- SOIL_VALUE_WET in system_config.h (saturated soil / water). -/
def SOIL_VALUE_WET : ℚ := 1050

/-- BATT_VOLTAGE_MAX in system_config.h: 4.2 V, fully charged. -/
def BATT_VOLTAGE_MAX : ℚ := 21 / 5

/-- BATT_VOLTAGE_MIN in system_config.h: 3.0 V, empty. -/
def BATT_VOLTAGE_MIN : ℚ := 3

-- ===========================================================================
-- Persistent cycle state and the deep-sleep module (deep_sleep.c)
-- ===========================================================================

/-- deep_sleep_state_t from deep_sleep.h: the RTC-memory record that survives
deep sleep.  boot_count and sensor_read_count are u32, last_read_time is a
u64 microsecond timestamp, first_boot is a bool. -/
structure DeepSleepState where
  boot_count : Nat
  sensor_read_count : Nat
  last_read_time : Nat
  first_boot : Bool
deriving DecidableEq

/-- The static initializer of rtc_state in deep_sleep.c (first power-on). -/
def initialRtcState : DeepSleepState :=
  { boot_count := 0, sensor_read_count := 0, last_read_time := 0, first_boot := true }

/-- The file-static module state of deep_sleep.c: the RTC record plus the
non-retained statics (initialized flag and wake_time_us), which reset on
every wake because the processor powers off. -/
structure DeepSleepModule where
  rtc : DeepSleepState
  inited : Bool
  wake_time_us : Nat
deriving DecidableEq

/-- Wake cause as distinguished by deep_sleep_init: ESP_SLEEP_WAKEUP_TIMER
versus ESP_SLEEP_WAKEUP_UNDEFINED and every other cause (the default arm of
the switch). -/
inductive WakeCause where
  | timer
  | undefinedOrOther
deriving DecidableEq

/-- Wrapping 64-bit subtraction, as performed on uint64_t operands in C.
Faithful for operands below 2 to the 64. -/
def u64sub (a b : Nat) : Nat := (a + 2 ^ 64 - b) % 2 ^ 64

/-- deep_sleep_init (deep_sleep.c lines 41 to 78): capture the wake time,
increment the u32 boot counter, then adjust first_boot according to the wake
cause: a timer wake clears it; an undefined (or other) cause sets it and
zeroes last_read_time only when the incremented boot counter equals 1. -/
def deep_sleep_init (rtc : DeepSleepState) (now : Nat) (cause : WakeCause) :
    DeepSleepModule :=
  let rtc1 := { rtc with boot_count := (rtc.boot_count + 1) % 2 ^ 32 }
  let rtc2 :=
    match cause with
    | WakeCause.timer => { rtc1 with first_boot := false }
    | WakeCause.undefinedOrOther =>
        if rtc1.boot_count = 1 then
          { rtc1 with first_boot := true, last_read_time := 0 }
        else rtc1
  { rtc := rtc2, inited := true, wake_time_us := now }

/-- deep_sleep_should_read_sensors (deep_sleep.c lines 90 to 113): false when
not initialized; true unconditionally on first_boot; otherwise compares the
u64 difference wake_time_us - last_read_time against the read interval. -/
def deep_sleep_should_read_sensors (m : DeepSleepModule) : Bool :=
  if !m.inited then false
  else if m.rtc.first_boot then true
  else decide (READ_INTERVAL_US ≤ u64sub m.wake_time_us m.rtc.last_read_time)

/-- deep_sleep_mark_sensors_read (deep_sleep.c lines 115 to 120): set
last_read_time to the wake time and increment the u32 reading counter.  It
does not touch first_boot. -/
def deep_sleep_mark_sensors_read (m : DeepSleepModule) : DeepSleepModule :=
  { m with rtc :=
      { m.rtc with
        last_read_time := m.wake_time_us,
        sensor_read_count := (m.rtc.sensor_read_count + 1) % 2 ^ 32 } }

/-- deep_sleep_enter (deep_sleep.c lines 156 to 198): fails when the module
is not initialized; otherwise clears first_boot unconditionally, arms the
wake timer for SLEEP_INTERVAL_SEC seconds (floored at 10 seconds) and powers
down.  The result carries the module state as it is left in RTC memory and
the armed sleep duration in seconds. -/
def deep_sleep_enter (m : DeepSleepModule) : Option (DeepSleepModule × Nat) :=
  if m.inited then
    some ({ m with rtc := { m.rtc with first_boot := false } },
          if SLEEP_INTERVAL_SEC < 10 then 10 else SLEEP_INTERVAL_SEC)
  else none

-- ===========================================================================
-- Soil sensor adapter (soil_sensor.c)
-- ===========================================================================

/-- Moisture conversion in soil_sensor_read_moisture (soil_sensor.c lines
124 to 129): linear rescale of the 16-bit raw capacitance reading by the
dry and wet calibration constants, clamped to the interval from 0 to 100. -/
def moisture_percent_of_raw (raw : Nat) : ℚ :=
  let pct : ℚ := ((raw : ℚ) - SOIL_VALUE_DRY) / (SOIL_VALUE_WET - SOIL_VALUE_DRY) * 100
  if pct < 0 then 0 else if 100 < pct then 100 else pct

/-- soil_data_t as filled in by soil_sensor_read_all. -/
structure SoilData where
  moisture_raw : Nat
  moisture_percent : ℚ
  temperature_c : ℚ
  temperature_f : ℚ
  valid : Bool
deriving DecidableEq

/-- soil_sensor_read_all (soil_sensor.c lines 175 to 203).  The moisture
sub-read outcome is the decoded 16-bit raw value when the I2C transaction
succeeded; the temperature sub-read outcome is the decoded Celsius value.
A failed moisture sub-read fails the whole call; a failed temperature
sub-read degrades to temperature_c = 0 (and temperature_f = 32) while the
call still succeeds with the moisture data. -/
def soil_sensor_read_all (mo : Option Nat) (tc : Option ℚ) : Option SoilData :=
  match mo with
  | none => none
  | some raw =>
    match tc with
    | some t =>
        some { moisture_raw := raw, moisture_percent := moisture_percent_of_raw raw,
               temperature_c := t, temperature_f := t * 9 / 5 + 32, valid := true }
    | none =>
        some { moisture_raw := raw, moisture_percent := moisture_percent_of_raw raw,
               temperature_c := 0, temperature_f := 32, valid := true }

-- ===========================================================================
-- Battery adapter (battery_monitoring.c, deep-sleep variant)
-- ===========================================================================

/-- voltage_to_percentage (battery_monitoring.c lines 38 to 70): above 4.3 V
report 100 (USB present); otherwise clamp to the LiPo window and apply the
4-segment piecewise-linear discharge curve. -/
def voltage_to_percentage (voltage : ℚ) : ℚ :=
  if 43 / 10 < voltage then 100
  else if BATT_VOLTAGE_MAX ≤ voltage then 100
  else if voltage ≤ BATT_VOLTAGE_MIN then 0
  else if 39 / 10 < voltage then 80 + (voltage - 39 / 10) / (3 / 10) * 20
  else if 37 / 10 < voltage then 50 + (voltage - 37 / 10) / (2 / 10) * 30
  else if 34 / 10 < voltage then 20 + (voltage - 34 / 10) / (3 / 10) * 30
  else (voltage - BATT_VOLTAGE_MIN) / (4 / 10) * 20

/-- battery_read (battery_monitoring.c lines 169 to 185): when the ADC
voltage read succeeds it returns the voltage and its percentage conversion;
when it fails (no valid ADC samples) the call fails. -/
def battery_read (vo : Option ℚ) : Option (ℚ × ℚ) :=
  match vo with
  | none => none
  | some v => some (v, voltage_to_percentage v)

-- ===========================================================================
-- Multi-sample averaging (read_averaged_sensors, main.c lines 113 to 167)
-- ===========================================================================

/-- Hardware outcomes of one iteration of the sampling loop: the soil
moisture sub-read, the soil temperature sub-read, and the battery ADC
read.  some means the underlying transaction returned ESP_OK. -/
structure SampleEnv where
  soil_moisture : Option Nat
  soil_temp : Option ℚ
  battery_voltage : Option ℚ
deriving DecidableEq

/-- The running sums and valid-sample counters of read_averaged_sensors. -/
structure Accum where
  msum : ℚ
  tsum : ℚ
  vsum : ℚ
  psum : ℚ
  nsoil : Nat
  nbatt : Nat
deriving DecidableEq

/-- One iteration of the sampling loop in read_averaged_sensors: a
successful soil_sensor_read_all adds its moisture percentage and its
temperature to the soil sums and bumps valid_soil_samples; a successful
battery_read adds voltage and percentage and bumps valid_battery_samples. -/
def sampleStep (a : Accum) (s : SampleEnv) : Accum :=
  let a1 :=
    match soil_sensor_read_all s.soil_moisture s.soil_temp with
    | some d =>
        { a with msum := a.msum + d.moisture_percent,
                 tsum := a.tsum + d.temperature_c,
                 nsoil := a.nsoil + 1 }
    | none => a
  match battery_read s.battery_voltage with
  | some pv =>
      { a1 with vsum := a1.vsum + pv.1, psum := a1.psum + pv.2, nbatt := a1.nbatt + 1 }
  | none => a1

/-- The averaged values returned through the out-parameters of
read_averaged_sensors, together with its boolean result.  The caller
(wake_cycle_task) initializes the out-parameters to 0, and the function
overwrites them only when the corresponding valid count is positive. -/
structure AveragedResult where
  moisture : ℚ
  temp : ℚ
  voltage : ℚ
  percent : ℚ
  ok : Bool
deriving DecidableEq

/-- read_averaged_sensors (main.c lines 113 to 167): fold the sampling loop
over the per-sample outcomes, then divide each sum by its own valid count;
the boolean result requires at least one valid sample of each kind. -/
def read_averaged_sensors (samples : List SampleEnv) : AveragedResult :=
  let acc := samples.foldl sampleStep
    { msum := 0, tsum := 0, vsum := 0, psum := 0, nsoil := 0, nbatt := 0 }
  { moisture := if 0 < acc.nsoil then acc.msum / (acc.nsoil : ℚ) else 0,
    temp := if 0 < acc.nsoil then acc.tsum / (acc.nsoil : ℚ) else 0,
    voltage := if 0 < acc.nbatt then acc.vsum / (acc.nbatt : ℚ) else 0,
    percent := if 0 < acc.nbatt then acc.psum / (acc.nbatt : ℚ) else 0,
    ok := decide (0 < acc.nsoil) && decide (0 < acc.nbatt) }

/-- The soil samples that contribute to the soil averages: one entry per
sample whose moisture sub-read succeeded, carrying the raw moisture value
and the (possibly failed) temperature sub-read outcome. -/
def validSoil (ss : List SampleEnv) : List (Nat × Option ℚ) :=
  ss.filterMap fun s =>
    match s.soil_moisture with
    | some raw => some (raw, s.soil_temp)
    | none => none

/-- The voltages of the battery samples whose ADC read succeeded. -/
def validBattVoltages (ss : List SampleEnv) : List ℚ :=
  ss.filterMap fun s => s.battery_voltage

/-- Spec-side helper for claim C2: the temperature values of exactly those
samples whose temperature sub-read succeeded (and whose moisture read
succeeded, so the sample is counted at all). -/
def tempValidSamples (ss : List SampleEnv) : List ℚ :=
  ss.filterMap fun s =>
    match s.soil_moisture, s.soil_temp with
    | some _, some t => some t
    | _, _ => none

/-- Modelled from the spec (claim C2): the reported temperature the spec
describes, namely the arithmetic mean taken only over samples whose
temperature sub-read succeeded. -/
def spec_temp_average (ss : List SampleEnv) : ℚ :=
  (tempValidSamples ss).sum / ((tempValidSamples ss).length : ℚ)

-- ===========================================================================
-- Attribute reporting and wire scalings (report_sensor_data, main.c lines
-- 172 to 218; zigbee_core.c lines 482 to 535)
-- ===========================================================================

/-- Truncation toward zero of a rational, which is what a C float-to-integer
cast performs for in-range values. -/
def truncQ (q : ℚ) : Int := if 0 ≤ q then ⌊q⌋ else -⌊-q⌋

/-- A C cast of a float to uint16_t, for values in the range of uint16_t
(outside that range the C cast is undefined; every theorem below constrains
its inputs to the defined range). -/
def u16_of_q (q : ℚ) : Nat := (truncQ q).toNat % 65536

/-- A C cast of a float to int16_t, for values in the range of int16_t
(outside that range the C cast is undefined; every theorem below constrains
its inputs to the defined range). -/
def i16_of_q (q : ℚ) : Int := (truncQ q + 32768) % 65536 - 32768

/-- Observable events of one wake episode, in program order: polls of the
cached join flag, the (single) sensor-sampling pass, the individual
attribute writes issued by report_sensor_data, the mark-sensors-read state
update, and the final entry into deep sleep. -/
inductive Event where
  | poll (joined : Bool)
  | sensorRead
  | reportBattPercent (v : Nat)
  | reportBattVoltage (v : Nat)
  | reportMoisture (v : Nat)
  | reportTemp (v : Int)
  | markRead
  | enterSleep
deriving DecidableEq

/-- An attribute-write event of any of the four published quantities. -/
def Event.isReport : Event → Bool
  | Event.reportBattPercent _ => true
  | Event.reportBattVoltage _ => true
  | Event.reportMoisture _ => true
  | Event.reportTemp _ => true
  | _ => false

/-- A battery attribute-write event (percentage or voltage). -/
def Event.isBatteryReport : Event → Bool
  | Event.reportBattPercent _ => true
  | Event.reportBattVoltage _ => true
  | _ => false

/-- report_sensor_data (main.c lines 172 to 218).  Battery percentage: cast
percent * 2 to u16, clamp at 200, report as u8.  Battery voltage: cast
voltage * 10 to u16 and report as u8 only when it fits in 255.  Moisture
(zigbee_core_update_soil_moisture): cast percent * 100 to u16, clamp at
10000.  Temperature (zigbee_core_update_soil_temperature): cast
celsius * 100 to i16.  All four writes are attempted in this order; a soft
failure of one write does not suppress the others. -/
def report_sensor_data (moisture temp voltage percent : ℚ) : List Event :=
  let battery_percent_raw : Nat := u16_of_q (percent * 2)
  let battery_percent : Nat :=
    if battery_percent_raw ≤ 200 then battery_percent_raw else 200
  let battery_voltage_raw : Nat := u16_of_q (voltage * 10)
  let humidity_value_raw : Nat := u16_of_q (moisture * 100)
  let humidity_value : Nat :=
    if 10000 < humidity_value_raw then 10000 else humidity_value_raw
  let temp_value : Int := i16_of_q (temp * 100)
  Event.reportBattPercent battery_percent ::
    ((if battery_voltage_raw ≤ 255 then [Event.reportBattVoltage battery_voltage_raw]
      else []) ++
     [Event.reportMoisture humidity_value, Event.reportTemp temp_value])

-- ===========================================================================
-- Wake-cycle orchestrator (wake_cycle_task, main.c lines 289 to 381)
-- ===========================================================================

/-- The environment of one wake episode: the join flag value observed by the
polls of iteration k of the wake loop, the tick-count value (ms) read at the
start of iteration k, the tick count captured just before the loop (both
start_time and zigbee_join_start, which are read back to back with no delay
between them), and the hardware outcomes of the sampling pass should one be
attempted. -/
structure WakeEnv where
  joined : Nat → Bool
  tick : Nat → Nat
  start : Nat
  samples : List SampleEnv

/-- The monotone-clock facts the FreeRTOS tick counter provides: the first
iteration does not start before the episode start, and each vTaskDelay of
1000 ms advances the counter by at least 1000 ticks. -/
def ClockOk (env : WakeEnv) : Prop :=
  env.start ≤ env.tick 0 ∧ ∀ k, env.tick k + 1000 ≤ env.tick (k + 1)

/-- The reason the wake loop exits: the sensor read failed outright, the
data was read and reported, the 60 s wake ceiling expired, or the 30 s join
wait expired while unjoined. -/
inductive EndReason where
  | readFailed
  | reported
  | wakeTimeout
  | joinTimeout
deriving DecidableEq

/-- The wake loop of wake_cycle_task (main.c lines 308 to 372), one
iteration per recursive step, with an explicit fuel bound on the number of
iterations.  Per iteration: poll the join flag; when joined and sensors are
due, run the sampling pass and either break on failure or report, mark the
state and break; when not breaking in the joined block, break when the
elapsed time reaches WAKE_TIME_MS, break when unjoined for MAX_JOIN_WAIT_MS,
else delay 1000 ms and loop.  The value none means the fuel ran out before
the loop exited; the theorems show fuel 61 always suffices under ClockOk.
The mutable flags sensors_read and data_transmitted of the C code never
carry a true value into a later iteration, because every assignment to them
is followed by a break in the same iteration; they are therefore not loop
parameters here. -/
def runLoop (env : WakeEnv) (m : DeepSleepModule) :
    Nat → Nat → List Event × Option (EndReason × DeepSleepModule)
  | 0, _ => ([], none)
  | fuel + 1, k =>
    if env.joined k then
      if deep_sleep_should_read_sensors m then
        if (read_averaged_sensors env.samples).ok then
          (Event.poll true :: Event.sensorRead ::
            (report_sensor_data (read_averaged_sensors env.samples).moisture
              (read_averaged_sensors env.samples).temp
              (read_averaged_sensors env.samples).voltage
              (read_averaged_sensors env.samples).percent ++ [Event.markRead]),
           some (EndReason.reported, deep_sleep_mark_sensors_read m))
        else
          ([Event.poll true, Event.sensorRead], some (EndReason.readFailed, m))
      else
        if WAKE_TIME_MS ≤ env.tick k - env.start then
          ([Event.poll true], some (EndReason.wakeTimeout, m))
        else
          (Event.poll true :: (runLoop env m fuel (k + 1)).1,
           (runLoop env m fuel (k + 1)).2)
    else
      if WAKE_TIME_MS ≤ env.tick k - env.start then
        ([Event.poll false], some (EndReason.wakeTimeout, m))
      else if MAX_JOIN_WAIT_MS ≤ env.tick k - env.start then
        ([Event.poll false], some (EndReason.joinTimeout, m))
      else
        (Event.poll false :: (runLoop env m fuel (k + 1)).1,
         (runLoop env m fuel (k + 1)).2)

/-- One whole wake episode (wake_cycle_task, main.c lines 289 to 381): run
the wake loop, then call deep_sleep_enter.  The trace records the episode
events followed by the sleep entry; the result carries the exit reason and
the module state as deep_sleep_enter leaves it in RTC memory. -/
def wake_cycle_task (env : WakeEnv) (m : DeepSleepModule) (fuel : Nat) :
    List Event × Option (EndReason × DeepSleepModule) :=
  match (runLoop env m fuel 0).2 with
  | some rm =>
    match deep_sleep_enter rm.2 with
    | some p => ((runLoop env m fuel 0).1 ++ [Event.enterSleep], some (rm.1, p.1))
    | none => ((runLoop env m fuel 0).1, none)
  | none => ((runLoop env m fuel 0).1, none)

-- ===========================================================================
-- Trace-ordering properties (for the temporal claims)
-- ===========================================================================

/-- Every sensor-sampling pass in the trace occurs strictly after some poll
of the join flag that observed true. -/
def ReadAfterJoin (tr : List Event) : Prop :=
  ∀ i, ∀ h : i < tr.length, tr.get ⟨i, h⟩ = Event.sensorRead →
    ∃ j, ∃ hj : j < tr.length, j < i ∧ tr.get ⟨j, hj⟩ = Event.poll true

/-- Every attribute-write event in the trace occurs strictly after some
completed sensor-sampling pass. -/
def ReportAfterRead (tr : List Event) : Prop :=
  ∀ i, ∀ h : i < tr.length, (tr.get ⟨i, h⟩).isReport = true →
    ∃ j, ∃ hj : j < tr.length, j < i ∧ tr.get ⟨j, hj⟩ = Event.sensorRead

-- ===========================================================================
-- Concrete inputs used by counterexamples and witnesses
-- ===========================================================================

/-- A wake episode in which the device is joined from the start, sensor
readings are due, and every single hardware transaction of the sampling
pass fails (all five samples invalid). -/
def allFailEnv : WakeEnv :=
  { joined := fun _ => true,
    tick := fun k => 1000 * k,
    start := 0,
    samples := List.replicate NUM_SENSOR_SAMPLES
      { soil_moisture := none, soil_temp := none, battery_voltage := none } }

/-- The module state right after deep_sleep_init on the very first power-on
boot (undefined wake cause, boot_count incremented to 1, first_boot true). -/
def firstBootModule : DeepSleepModule :=
  deep_sleep_init initialRtcState 0 WakeCause.undefinedOrOther

/-- Two-sample environment for claim C2: both moisture sub-reads succeed,
the first temperature sub-read returns 20 C, the second fails. -/
def tempFailSamples : List SampleEnv :=
  [ { soil_moisture := some 700, soil_temp := some 20, battery_voltage := some 4 },
    { soil_moisture := some 700, soil_temp := none, battery_voltage := some 4 } ]

/-- An environment that never joins, with ticks advancing 1000 ms per
iteration. -/
def neverJoinEnv : WakeEnv :=
  { joined := fun _ => false,
    tick := fun k => 1000 * k,
    start := 0,
    samples := [] }

/-- Sample list for the battery-averaging witness: two valid battery reads
(3.8 V and 4.0 V), one failed one, and one valid soil read. -/
def battWitnessSamples : List SampleEnv :=
  [ { soil_moisture := some 700, soil_temp := some 20, battery_voltage := some (19 / 5) },
    { soil_moisture := none, soil_temp := none, battery_voltage := none },
    { soil_moisture := none, soil_temp := none, battery_voltage := some 4 } ]

-- ===========================================================================
-- Helper lemmas
-- ===========================================================================

theorem u64sub_self (a : Nat) : u64sub a a = 0 := by
  unfold u64sub
  have h1 : a + 2 ^ 64 - a = 2 ^ 64 := by omega
  rw [h1, Nat.mod_self]

theorem u64sub_eq (a b : Nat) (hba : b ≤ a) (ha : a < 2 ^ 64) :
    u64sub a b = a - b := by
  unfold u64sub
  have h1 : a + 2 ^ 64 - b = (a - b) + 2 ^ 64 := by omega
  rw [h1, Nat.add_mod_right, Nat.mod_eq_of_lt (by omega)]

-- ===========================================================================
-- C1 (corrected): the first_boot latch
-- ===========================================================================

/-- C1, counterexample.  The claim says first_boot is cleared on, and only
on, the first call to deep_sleep_mark_sensors_read, so a device that never
reads sensors successfully never clears it.  On the code, a first-power-on
episode in which every sensor transaction fails (so mark_sensors_read is
never called: the trace contains no markRead event) still ends with
deep_sleep_enter clearing first_boot. -/
theorem first_boot_cleared_without_any_successful_read :
    firstBootModule.rtc.first_boot = true
    ∧ (wake_cycle_task allFailEnv firstBootModule 61).1 =
        [Event.poll true, Event.sensorRead, Event.enterSleep]
    ∧ ((wake_cycle_task allFailEnv firstBootModule 61).2.map
        fun p => p.2.rtc.first_boot) = some false := by
  refine ⟨rfl, ?_, ?_⟩ <;> rfl

/-- C1 (amended): deep_sleep_mark_sensors_read never modifies first_boot;
deep_sleep_enter clears first_boot unconditionally (on any initialized
module, whether or not a read succeeded); and deep_sleep_init clears it on
any timer wake.  So first_boot survives only until the end of the first
wake episode, not until the first successful read. -/
theorem first_boot_transition_semantics (m : DeepSleepModule)
    (hI : m.inited = true) (now : Nat) (rtc : DeepSleepState) :
    (deep_sleep_mark_sensors_read m).rtc.first_boot = m.rtc.first_boot
    ∧ ((deep_sleep_enter m).map fun p => p.1.rtc.first_boot) = some false
    ∧ (deep_sleep_init rtc now WakeCause.timer).rtc.first_boot = false := by
  refine ⟨rfl, ?_, rfl⟩
  simp [deep_sleep_enter, hI]

/-- C1, witness for the amended theorem at a concrete module state. -/
theorem first_boot_transition_semantics_witness :
    (deep_sleep_mark_sensors_read firstBootModule).rtc.first_boot =
        firstBootModule.rtc.first_boot
    ∧ ((deep_sleep_enter firstBootModule).map fun p => p.1.rtc.first_boot) = some false
    ∧ (deep_sleep_init initialRtcState 0 WakeCause.timer).rtc.first_boot = false :=
  first_boot_transition_semantics firstBootModule rfl 0 initialRtcState

-- ===========================================================================
-- C5 (corrected): should_read_sensors semantics
-- ===========================================================================

/-- C5, counterexample.  The claim says that after a call that returned true
followed by mark_sensors_read, an immediate re-check at the same timestamp
returns false.  On the code, when the true was due to first_boot (the very
situation of the first boot), mark_sensors_read does not clear first_boot
and the immediate re-check still returns true. -/
theorem should_read_after_mark_first_boot_cex :
    deep_sleep_should_read_sensors firstBootModule = true
    ∧ deep_sleep_should_read_sensors
        (deep_sleep_mark_sensors_read firstBootModule) = true :=
  ⟨rfl, rfl⟩

/-- C5 (amended): on an initialized module, should_read_sensors returns true
unconditionally when first_boot is set, and otherwise returns true exactly
when wake_time_us - last_read_time has reached READ_INTERVAL_US; after a
true answer followed by mark_sensors_read, the immediate re-check at the
same wake timestamp returns false when first_boot is clear, but still
returns true when the original true was due to first_boot, because
mark_sensors_read leaves first_boot untouched. -/
theorem should_read_semantics (m : DeepSleepModule) (hI : m.inited = true)
    (hw : m.wake_time_us < 2 ^ 64) :
    (m.rtc.first_boot = true → deep_sleep_should_read_sensors m = true)
    ∧ (m.rtc.first_boot = false → m.rtc.last_read_time ≤ m.wake_time_us →
        (deep_sleep_should_read_sensors m = true ↔
          READ_INTERVAL_US ≤ m.wake_time_us - m.rtc.last_read_time))
    ∧ (m.rtc.first_boot = false →
        deep_sleep_should_read_sensors (deep_sleep_mark_sensors_read m) = false)
    ∧ (m.rtc.first_boot = true →
        deep_sleep_should_read_sensors (deep_sleep_mark_sensors_read m) = true) := by
  refine ⟨?_, ?_, ?_, ?_⟩
  · intro hfb
    simp [deep_sleep_should_read_sensors, hI, hfb]
  · intro hfb hle
    rw [deep_sleep_should_read_sensors]
    simp [hI, hfb, u64sub_eq m.wake_time_us m.rtc.last_read_time hle hw]
  · intro hfb
    rw [deep_sleep_should_read_sensors]
    simp [deep_sleep_mark_sensors_read, hI, hfb, u64sub_self,
          READ_INTERVAL_US, SLEEP_INTERVAL_SEC]
  · intro hfb
    simp [deep_sleep_should_read_sensors, deep_sleep_mark_sensors_read, hI, hfb]

/-- C5, witness for the amended theorem: a module one hour past its last
reading reads again; one that just marked does not. -/
theorem should_read_semantics_witness :
    (deep_sleep_should_read_sensors
      { rtc := { boot_count := 2, sensor_read_count := 1,
                 last_read_time := 0, first_boot := false },
        inited := true, wake_time_us := 3600000000 } = true ↔
      READ_INTERVAL_US ≤ 3600000000 - 0)
    ∧ deep_sleep_should_read_sensors (deep_sleep_mark_sensors_read
        { rtc := { boot_count := 2, sensor_read_count := 1,
                   last_read_time := 0, first_boot := false },
          inited := true, wake_time_us := 3600000000 }) = false :=
  ⟨(should_read_semantics _ rfl (by norm_num)).2.1 rfl (by norm_num),
   (should_read_semantics _ rfl (by norm_num)).2.2.1 rfl⟩

-- ===========================================================================
-- C9: calibration clamps
-- ===========================================================================

/-- C9: every raw moisture reading strictly below the dry calibration
constant converts to exactly 0 percent; every raw reading strictly above
the wet calibration constant converts to exactly 100 percent; and every
battery voltage strictly above 4.3 V converts to exactly 100 percent
regardless of the piecewise-linear curve. -/
theorem calibration_clamp_values :
    (∀ raw : Nat, raw < 329 → moisture_percent_of_raw raw = 0)
    ∧ (∀ raw : Nat, 1050 < raw → moisture_percent_of_raw raw = 100)
    ∧ (∀ v : ℚ, 43 / 10 < v → voltage_to_percentage v = 100) := by
  refine ⟨?_, ?_, ?_⟩
  · intro raw h
    have hr : (raw : ℚ) < 329 := by exact_mod_cast h
    simp only [moisture_percent_of_raw, SOIL_VALUE_DRY, SOIL_VALUE_WET]
    have e : ((raw : ℚ) - 329) / ((1050 : ℚ) - 329) * 100 =
        ((raw : ℚ) - 329) * (100 / 721) := by
      rw [show ((1050 : ℚ) - 329) = 721 by norm_num]; ring
    split_ifs with h1 h2
    · rfl
    · exfalso; rw [e] at h2; linarith
    · exfalso
      rw [e] at h1
      have : ((raw : ℚ) - 329) * (100 / 721) < 0 :=
        mul_neg_of_neg_of_pos (by linarith) (by norm_num)
      exact h1 this
  · intro raw h
    have hr : (1050 : ℚ) < (raw : ℚ) := by exact_mod_cast h
    simp only [moisture_percent_of_raw, SOIL_VALUE_DRY, SOIL_VALUE_WET]
    have e : ((raw : ℚ) - 329) / ((1050 : ℚ) - 329) * 100 =
        ((raw : ℚ) - 329) * (100 / 721) := by
      rw [show ((1050 : ℚ) - 329) = 721 by norm_num]; ring
    split_ifs with h1 h2
    · exfalso; rw [e] at h1; linarith
    · rfl
    · exfalso; rw [e] at h2; push_neg at h2; linarith
  · intro v h
    simp [voltage_to_percentage, h]

/-- C9, witness at concrete raw readings and a concrete voltage. -/
theorem calibration_clamp_values_witness :
    moisture_percent_of_raw 100 = 0 ∧ moisture_percent_of_raw 2000 = 100
    ∧ voltage_to_percentage 5 = 100 :=
  ⟨calibration_clamp_values.1 100 (by norm_num),
   calibration_clamp_values.2.1 2000 (by norm_num),
   calibration_clamp_values.2.2 5 (by norm_num)⟩

-- ===========================================================================
-- C10: the battery curve is total, bounded and monotone
-- ===========================================================================

theorem vtp_bounds (v : ℚ) :
    0 ≤ voltage_to_percentage v ∧ voltage_to_percentage v ≤ 100 := by
  unfold voltage_to_percentage BATT_VOLTAGE_MAX BATT_VOLTAGE_MIN
  split_ifs <;> constructor <;> linarith

set_option maxHeartbeats 1000000 in
theorem vtp_mono (v w : ℚ) (hvw : v ≤ w) :
    voltage_to_percentage v ≤ voltage_to_percentage w := by
  unfold voltage_to_percentage BATT_VOLTAGE_MAX BATT_VOLTAGE_MIN
  split_ifs <;> linarith

/-- C10: voltage_to_percentage is total and well-behaved: every input maps
into the interval from 0 to 100, the function is monotone non-decreasing,
and the piecewise segments agree at the boundaries: 3.0 V to 0 percent,
3.4 V to 20, 3.7 V to 50, 3.9 V to 80, 4.2 V to 100. -/
theorem voltage_to_percentage_wellbehaved :
    (∀ v : ℚ, 0 ≤ voltage_to_percentage v ∧ voltage_to_percentage v ≤ 100)
    ∧ (∀ v w : ℚ, v ≤ w → voltage_to_percentage v ≤ voltage_to_percentage w)
    ∧ voltage_to_percentage 3 = 0 ∧ voltage_to_percentage (17 / 5) = 20
    ∧ voltage_to_percentage (37 / 10) = 50 ∧ voltage_to_percentage (39 / 10) = 80
    ∧ voltage_to_percentage (21 / 5) = 100 := by
  refine ⟨vtp_bounds, vtp_mono, ?_, ?_, ?_, ?_, ?_⟩ <;>
    norm_num [voltage_to_percentage, BATT_VOLTAGE_MAX, BATT_VOLTAGE_MIN]

/-- C10, witness for the monotonicity part at concrete voltages. -/
theorem voltage_to_percentage_wellbehaved_witness :
    0 ≤ voltage_to_percentage (7 / 2)
    ∧ voltage_to_percentage (7 / 2) ≤ voltage_to_percentage 4 :=
  ⟨(voltage_to_percentage_wellbehaved.1 (7 / 2)).1,
   voltage_to_percentage_wellbehaved.2.1 (7 / 2) 4 (by norm_num)⟩

-- ===========================================================================
-- Characterizing the sampling fold
-- ===========================================================================

theorem foldl_sampleStep_nsoil (ss : List SampleEnv) :
    ∀ a : Accum, (ss.foldl sampleStep a).nsoil = a.nsoil + (validSoil ss).length := by
  induction ss with
  | nil => intro a; simp [validSoil]
  | cons s ss ih =>
    intro a
    rw [List.foldl_cons, ih]
    rcases s with ⟨mo, tq, bq⟩
    rcases mo with _ | raw <;> rcases tq with _ | t <;> rcases bq with _ | bv <;>
      simp [sampleStep, soil_sensor_read_all, battery_read, validSoil] <;> omega

theorem foldl_sampleStep_nbatt (ss : List SampleEnv) :
    ∀ a : Accum, (ss.foldl sampleStep a).nbatt = a.nbatt + (validBattVoltages ss).length := by
  induction ss with
  | nil => intro a; simp [validBattVoltages]
  | cons s ss ih =>
    intro a
    rw [List.foldl_cons, ih]
    rcases s with ⟨mo, tq, bq⟩
    rcases mo with _ | raw <;> rcases tq with _ | t <;> rcases bq with _ | bv <;>
      simp [sampleStep, soil_sensor_read_all, battery_read, validBattVoltages] <;> omega

theorem foldl_sampleStep_msum (ss : List SampleEnv) :
    ∀ a : Accum, (ss.foldl sampleStep a).msum =
      a.msum + ((validSoil ss).map fun p => moisture_percent_of_raw p.1).sum := by
  induction ss with
  | nil => intro a; simp [validSoil]
  | cons s ss ih =>
    intro a
    rw [List.foldl_cons, ih]
    rcases s with ⟨mo, tq, bq⟩
    rcases mo with _ | raw <;> rcases tq with _ | t <;> rcases bq with _ | bv <;>
      simp [sampleStep, soil_sensor_read_all, battery_read, validSoil] <;> ring

theorem foldl_sampleStep_tsum (ss : List SampleEnv) :
    ∀ a : Accum, (ss.foldl sampleStep a).tsum =
      a.tsum + ((validSoil ss).map fun p => p.2.getD 0).sum := by
  induction ss with
  | nil => intro a; simp [validSoil]
  | cons s ss ih =>
    intro a
    rw [List.foldl_cons, ih]
    rcases s with ⟨mo, tq, bq⟩
    rcases mo with _ | raw <;> rcases tq with _ | t <;> rcases bq with _ | bv <;>
      simp [sampleStep, soil_sensor_read_all, battery_read, validSoil] <;> ring

theorem foldl_sampleStep_vsum (ss : List SampleEnv) :
    ∀ a : Accum, (ss.foldl sampleStep a).vsum = a.vsum + (validBattVoltages ss).sum := by
  induction ss with
  | nil => intro a; simp [validBattVoltages]
  | cons s ss ih =>
    intro a
    rw [List.foldl_cons, ih]
    rcases s with ⟨mo, tq, bq⟩
    rcases mo with _ | raw <;> rcases tq with _ | t <;> rcases bq with _ | bv <;>
      simp [sampleStep, soil_sensor_read_all, battery_read, validBattVoltages] <;> ring

theorem foldl_sampleStep_psum (ss : List SampleEnv) :
    ∀ a : Accum, (ss.foldl sampleStep a).psum =
      a.psum + ((validBattVoltages ss).map voltage_to_percentage).sum := by
  induction ss with
  | nil => intro a; simp [validBattVoltages]
  | cons s ss ih =>
    intro a
    rw [List.foldl_cons, ih]
    rcases s with ⟨mo, tq, bq⟩
    rcases mo with _ | raw <;> rcases tq with _ | t <;> rcases bq with _ | bv <;>
      simp [sampleStep, soil_sensor_read_all, battery_read, validBattVoltages] <;> ring

/-- Closed form of read_averaged_sensors over the valid-sample lists. -/
theorem read_averaged_sensors_eq (ss : List SampleEnv) :
    read_averaged_sensors ss =
      { moisture := if 0 < (validSoil ss).length then
            ((validSoil ss).map fun p => moisture_percent_of_raw p.1).sum /
              ((validSoil ss).length : ℚ)
          else 0,
        temp := if 0 < (validSoil ss).length then
            ((validSoil ss).map fun p => p.2.getD 0).sum / ((validSoil ss).length : ℚ)
          else 0,
        voltage := if 0 < (validBattVoltages ss).length then
            (validBattVoltages ss).sum / ((validBattVoltages ss).length : ℚ)
          else 0,
        percent := if 0 < (validBattVoltages ss).length then
            ((validBattVoltages ss).map voltage_to_percentage).sum /
              ((validBattVoltages ss).length : ℚ)
          else 0,
        ok := decide (0 < (validSoil ss).length) &&
              decide (0 < (validBattVoltages ss).length) } := by
  unfold read_averaged_sensors
  simp only [foldl_sampleStep_nsoil, foldl_sampleStep_nbatt, foldl_sampleStep_msum,
    foldl_sampleStep_tsum, foldl_sampleStep_vsum, foldl_sampleStep_psum]
  norm_num

/-- The boolean result of read_averaged_sensors holds exactly when at least
one soil sample and at least one battery sample were valid. -/
theorem read_averaged_ok_iff (ss : List SampleEnv) :
    (read_averaged_sensors ss).ok = true ↔
      0 < (validSoil ss).length ∧ 0 < (validBattVoltages ss).length := by
  rw [read_averaged_sensors_eq]
  simp

-- ===========================================================================
-- C2 (corrected): moisture / temperature independence
-- ===========================================================================

/-- C2, counterexample.  Two samples whose moisture sub-reads both succeed
with raw 700; the first temperature sub-read returns 20 C, the second
fails.  The claim says the reported temperature is the mean over the
samples whose temperature sub-read succeeded, which is 20; the code
averages the failed sub-read in as 0 C and reports 10. -/
theorem temp_average_counts_failed_as_zero_cex :
    (read_averaged_sensors tempFailSamples).temp = 10
    ∧ spec_temp_average tempFailSamples = 20
    ∧ (10 : ℚ) ≠ 20 := by
  refine ⟨?_, ?_, by norm_num⟩
  · rw [read_averaged_sensors_eq]
    norm_num [tempFailSamples, validSoil, List.filterMap_cons]
  · norm_num [spec_temp_average, tempValidSamples, tempFailSamples, List.filterMap_cons]

/-- C2 (amended): a soil sample with valid moisture but failed temperature
sub-read contributes its moisture value to the moisture average, and
contributes 0 C to the temperature average: the reported temperature is the
arithmetic mean over all samples with valid moisture, with failed
temperature sub-reads entering that mean as 0 rather than being excluded.
Both averages divide by the same count of valid-moisture samples. -/
theorem soil_average_semantics (ss : List SampleEnv)
    (hn : 0 < (validSoil ss).length) :
    (read_averaged_sensors ss).moisture =
      ((validSoil ss).map fun p => moisture_percent_of_raw p.1).sum /
        ((validSoil ss).length : ℚ)
    ∧ (read_averaged_sensors ss).temp =
      ((validSoil ss).map fun p => p.2.getD 0).sum / ((validSoil ss).length : ℚ) := by
  rw [read_averaged_sensors_eq]
  simp [hn]

/-- C2, witness for the amended theorem at the two-sample environment. -/
theorem soil_average_semantics_witness :
    (read_averaged_sensors tempFailSamples).moisture =
      ((validSoil tempFailSamples).map fun p => moisture_percent_of_raw p.1).sum /
        ((validSoil tempFailSamples).length : ℚ)
    ∧ (read_averaged_sensors tempFailSamples).temp =
      ((validSoil tempFailSamples).map fun p => p.2.getD 0).sum /
        ((validSoil tempFailSamples).length : ℚ) :=
  soil_average_semantics tempFailSamples
    (by simp [tempFailSamples, validSoil, List.filterMap_cons])


-- ===========================================================================
-- Step equations for the wake loop
-- ===========================================================================

theorem runLoop_step_joined_due_ok (env : WakeEnv) (m : DeepSleepModule)
    (n k : Nat) (hj : env.joined k = true)
    (hd : deep_sleep_should_read_sensors m = true)
    (hok : (read_averaged_sensors env.samples).ok = true) :
    runLoop env m (n + 1) k =
      (Event.poll true :: Event.sensorRead ::
        (report_sensor_data (read_averaged_sensors env.samples).moisture
          (read_averaged_sensors env.samples).temp
          (read_averaged_sensors env.samples).voltage
          (read_averaged_sensors env.samples).percent ++ [Event.markRead]),
       some (EndReason.reported, deep_sleep_mark_sensors_read m)) := by
  simp [runLoop, hj, hd, hok]

theorem runLoop_step_joined_due_fail (env : WakeEnv) (m : DeepSleepModule)
    (n k : Nat) (hj : env.joined k = true)
    (hd : deep_sleep_should_read_sensors m = true)
    (hok : (read_averaged_sensors env.samples).ok = false) :
    runLoop env m (n + 1) k =
      ([Event.poll true, Event.sensorRead], some (EndReason.readFailed, m)) := by
  simp [runLoop, hj, hd, hok]

theorem runLoop_step_joined_notdue_timeout (env : WakeEnv) (m : DeepSleepModule)
    (n k : Nat) (hj : env.joined k = true)
    (hd : deep_sleep_should_read_sensors m = false)
    (ht : WAKE_TIME_MS ≤ env.tick k - env.start) :
    runLoop env m (n + 1) k = ([Event.poll true], some (EndReason.wakeTimeout, m)) := by
  simp [runLoop, hj, hd, ht]

theorem runLoop_step_joined_notdue_go (env : WakeEnv) (m : DeepSleepModule)
    (n k : Nat) (hj : env.joined k = true)
    (hd : deep_sleep_should_read_sensors m = false)
    (ht : ¬(WAKE_TIME_MS ≤ env.tick k - env.start)) :
    runLoop env m (n + 1) k =
      (Event.poll true :: (runLoop env m n (k + 1)).1, (runLoop env m n (k + 1)).2) := by
  simp [runLoop, hj, hd, ht]

theorem runLoop_step_unjoined_timeout (env : WakeEnv) (m : DeepSleepModule)
    (n k : Nat) (hj : env.joined k = false)
    (ht : WAKE_TIME_MS ≤ env.tick k - env.start) :
    runLoop env m (n + 1) k = ([Event.poll false], some (EndReason.wakeTimeout, m)) := by
  simp [runLoop, hj, ht]

theorem runLoop_step_unjoined_jointimeout (env : WakeEnv) (m : DeepSleepModule)
    (n k : Nat) (hj : env.joined k = false)
    (ht : ¬(WAKE_TIME_MS ≤ env.tick k - env.start))
    (hjt : MAX_JOIN_WAIT_MS ≤ env.tick k - env.start) :
    runLoop env m (n + 1) k = ([Event.poll false], some (EndReason.joinTimeout, m)) := by
  simp [runLoop, hj, ht, hjt]

theorem runLoop_step_unjoined_go (env : WakeEnv) (m : DeepSleepModule)
    (n k : Nat) (hj : env.joined k = false)
    (ht : ¬(WAKE_TIME_MS ≤ env.tick k - env.start))
    (hjt : ¬(MAX_JOIN_WAIT_MS ≤ env.tick k - env.start)) :
    runLoop env m (n + 1) k =
      (Event.poll false :: (runLoop env m n (k + 1)).1, (runLoop env m n (k + 1)).2) := by
  simp [runLoop, hj, ht, hjt]

-- ===========================================================================
-- Wake-loop lemmas
-- ===========================================================================

theorem clock_lower (env : WakeEnv) (hC : ClockOk env) :
    ∀ k, env.start + 1000 * k ≤ env.tick k := by
  intro k
  induction k with
  | zero => simpa using hC.1
  | succ n ih =>
    have h2 := hC.2 n
    omega

/-- Under a monotone clock, fuel 61 suffices: the wake loop always exits. -/
theorem runLoop_terminates (env : WakeEnv) (m : DeepSleepModule) (hC : ClockOk env) :
    ∀ fuel k, 61 ≤ fuel + k → 1 ≤ fuel → ((runLoop env m fuel k).2).isSome = true := by
  intro fuel
  induction fuel with
  | zero => intro k h h1; omega
  | succ n ih =>
    intro k hk _
    have hlower : env.start + 1000 * k ≤ env.tick k := clock_lower env hC k
    cases hj : env.joined k
    · by_cases ht : WAKE_TIME_MS ≤ env.tick k - env.start
      · rw [runLoop_step_unjoined_timeout env m n k hj ht]; rfl
      · by_cases hjt : MAX_JOIN_WAIT_MS ≤ env.tick k - env.start
        · rw [runLoop_step_unjoined_jointimeout env m n k hj ht hjt]; rfl
        · have hk60 : k < 60 := by
            simp only [WAKE_TIME_MS] at ht
            omega
          rw [runLoop_step_unjoined_go env m n k hj ht hjt]
          exact ih (k + 1) (by omega) (by omega)
    · cases hd : deep_sleep_should_read_sensors m
      · by_cases ht : WAKE_TIME_MS ≤ env.tick k - env.start
        · rw [runLoop_step_joined_notdue_timeout env m n k hj hd ht]; rfl
        · have hk60 : k < 60 := by
            simp only [WAKE_TIME_MS] at ht
            omega
          rw [runLoop_step_joined_notdue_go env m n k hj hd ht]
          exact ih (k + 1) (by omega) (by omega)
      · cases hok : (read_averaged_sensors env.samples).ok
        · rw [runLoop_step_joined_due_fail env m n k hj hd hok]; rfl
        · rw [runLoop_step_joined_due_ok env m n k hj hd hok]; rfl

/-- When the wake loop exits, the module state is unchanged unless the exit
reason is reported, in which case exactly one mark_sensors_read was applied
and the sampling pass succeeded. -/
theorem runLoop_result_state (env : WakeEnv) (m : DeepSleepModule) :
    ∀ fuel k r m1, (runLoop env m fuel k).2 = some (r, m1) →
      (r = EndReason.reported ∧ m1 = deep_sleep_mark_sensors_read m
        ∧ (read_averaged_sensors env.samples).ok = true)
      ∨ (r ≠ EndReason.reported ∧ m1 = m) := by
  intro fuel
  induction fuel with
  | zero => intro k r m1 h; simp [runLoop] at h
  | succ n ih =>
    intro k r m1 h
    cases hj : env.joined k
    · by_cases ht : WAKE_TIME_MS ≤ env.tick k - env.start
      · rw [runLoop_step_unjoined_timeout env m n k hj ht] at h
        simp only [Option.some.injEq, Prod.mk.injEq] at h
        right
        exact ⟨by rw [← h.1]; decide, h.2.symm⟩
      · by_cases hjt : MAX_JOIN_WAIT_MS ≤ env.tick k - env.start
        · rw [runLoop_step_unjoined_jointimeout env m n k hj ht hjt] at h
          simp only [Option.some.injEq, Prod.mk.injEq] at h
          right
          exact ⟨by rw [← h.1]; decide, h.2.symm⟩
        · rw [runLoop_step_unjoined_go env m n k hj ht hjt] at h
          exact ih (k + 1) r m1 h
    · cases hd : deep_sleep_should_read_sensors m
      · by_cases ht : WAKE_TIME_MS ≤ env.tick k - env.start
        · rw [runLoop_step_joined_notdue_timeout env m n k hj hd ht] at h
          simp only [Option.some.injEq, Prod.mk.injEq] at h
          right
          exact ⟨by rw [← h.1]; decide, h.2.symm⟩
        · rw [runLoop_step_joined_notdue_go env m n k hj hd ht] at h
          exact ih (k + 1) r m1 h
      · cases hok : (read_averaged_sensors env.samples).ok
        · rw [runLoop_step_joined_due_fail env m n k hj hd hok] at h
          simp only [Option.some.injEq, Prod.mk.injEq] at h
          right
          exact ⟨by rw [← h.1]; decide, h.2.symm⟩
        · rw [runLoop_step_joined_due_ok env m n k hj hd hok] at h
          simp only [Option.some.injEq, Prod.mk.injEq] at h
          left
          exact ⟨h.1.symm, h.2.symm, rfl⟩

/-- When the sampling pass cannot succeed, the wake loop emits no attribute
write and no mark_sensors_read event. -/
theorem runLoop_no_report_of_not_ok (env : WakeEnv) (m : DeepSleepModule)
    (hok : (read_averaged_sensors env.samples).ok = false) :
    ∀ fuel k e, e ∈ (runLoop env m fuel k).1 →
      e.isReport = false ∧ e ≠ Event.markRead := by
  intro fuel
  induction fuel with
  | zero => intro k e he; simp [runLoop] at he
  | succ n ih =>
    intro k e he
    cases hj : env.joined k
    · by_cases ht : WAKE_TIME_MS ≤ env.tick k - env.start
      · rw [runLoop_step_unjoined_timeout env m n k hj ht] at he
        simp only [List.mem_singleton] at he
        subst he
        exact ⟨rfl, by decide⟩
      · by_cases hjt : MAX_JOIN_WAIT_MS ≤ env.tick k - env.start
        · rw [runLoop_step_unjoined_jointimeout env m n k hj ht hjt] at he
          simp only [List.mem_singleton] at he
          subst he
          exact ⟨rfl, by decide⟩
        · rw [runLoop_step_unjoined_go env m n k hj ht hjt] at he
          rcases List.mem_cons.mp he with rfl | hmem
          · exact ⟨rfl, by decide⟩
          · exact ih (k + 1) e hmem
    · cases hd : deep_sleep_should_read_sensors m
      · by_cases ht : WAKE_TIME_MS ≤ env.tick k - env.start
        · rw [runLoop_step_joined_notdue_timeout env m n k hj hd ht] at he
          simp only [List.mem_singleton] at he
          subst he
          exact ⟨rfl, by decide⟩
        · rw [runLoop_step_joined_notdue_go env m n k hj hd ht] at he
          rcases List.mem_cons.mp he with rfl | hmem
          · exact ⟨rfl, by decide⟩
          · exact ih (k + 1) e hmem
      · rw [runLoop_step_joined_due_fail env m n k hj hd hok] at he
        rcases List.mem_cons.mp he with rfl | hmem
        · exact ⟨rfl, by decide⟩
        · simp only [List.mem_singleton] at hmem
          subst hmem
          exact ⟨rfl, by decide⟩

/-- Episode-level form: a wake episode whose sampling pass cannot succeed
emits no attribute write and no mark event, sleep entry included. -/
theorem episode_no_report_of_not_ok (env : WakeEnv) (m : DeepSleepModule)
    (hok : (read_averaged_sensors env.samples).ok = false) (fuel : Nat) :
    ∀ e ∈ (wake_cycle_task env m fuel).1,
      e.isReport = false ∧ e ≠ Event.markRead := by
  intro e he
  unfold wake_cycle_task at he
  rcases h2 : (runLoop env m fuel 0).2 with _ | rp
  · simp only [h2] at he
    exact runLoop_no_report_of_not_ok env m hok fuel 0 e he
  · simp only [h2] at he
    rcases h3 : deep_sleep_enter rp.2 with _ | p
    · simp only [h3] at he
      exact runLoop_no_report_of_not_ok env m hok fuel 0 e he
    · simp only [h3] at he
      rcases List.mem_append.mp he with hmem | hmem
      · exact runLoop_no_report_of_not_ok env m hok fuel 0 e hmem
      · simp only [List.mem_singleton] at hmem
        subst hmem
        exact ⟨rfl, by decide⟩

-- ===========================================================================
-- C7: every wake episode ends in sleep entry
-- ===========================================================================

/-- C7: for every join-flag behavior, sampling outcome and due-ness, under
the monotone tick clock the wake loop exits within the 61 iterations that
the 60 s wake ceiling admits at the 1 s poll cadence (by read completion,
read failure, wake-time expiry or join timeout), and the episode then calls
deep_sleep_enter, which arms the timer for the full read interval: no path
keeps the device awake indefinitely. -/
theorem wake_episode_always_enters_sleep (env : WakeEnv) (m : DeepSleepModule)
    (hC : ClockOk env) (hI : m.inited = true) (fuel : Nat) (hf : 61 ≤ fuel) :
    ∃ r m1,
      (runLoop env m fuel 0).2 = some (r, m1)
      ∧ deep_sleep_enter m1 =
          some ({ m1 with rtc := { m1.rtc with first_boot := false } },
                SLEEP_INTERVAL_SEC)
      ∧ wake_cycle_task env m fuel =
          ((runLoop env m fuel 0).1 ++ [Event.enterSleep],
           some (r, { m1 with rtc := { m1.rtc with first_boot := false } })) := by
  have hs := runLoop_terminates env m hC fuel 0 (by omega) (by omega)
  rcases h2 : (runLoop env m fuel 0).2 with _ | rp
  · rw [h2] at hs
    simp at hs
  · obtain ⟨r, m1⟩ := rp
    have hst := runLoop_result_state env m fuel 0 r m1 h2
    have hin : m1.inited = true := by
      rcases hst with ⟨_, hm1, _⟩ | ⟨_, hm1⟩
      · rw [hm1]; exact hI
      · rw [hm1]; exact hI
    have henter : deep_sleep_enter m1 =
        some ({ m1 with rtc := { m1.rtc with first_boot := false } },
              SLEEP_INTERVAL_SEC) := by
      unfold deep_sleep_enter
      rw [hin]
      norm_num [SLEEP_INTERVAL_SEC]
    refine ⟨r, m1, rfl, henter, ?_⟩
    unfold wake_cycle_task
    simp only [h2, henter]

/-- C7, witness: the never-joining episode still reaches sleep entry. -/
theorem wake_episode_always_enters_sleep_witness :
    ∃ r m1,
      (runLoop neverJoinEnv firstBootModule 61 0).2 = some (r, m1)
      ∧ deep_sleep_enter m1 =
          some ({ m1 with rtc := { m1.rtc with first_boot := false } },
                SLEEP_INTERVAL_SEC)
      ∧ wake_cycle_task neverJoinEnv firstBootModule 61 =
          ((runLoop neverJoinEnv firstBootModule 61 0).1 ++ [Event.enterSleep],
           some (r, { m1 with rtc := { m1.rtc with first_boot := false } })) :=
  wake_episode_always_enters_sleep neverJoinEnv firstBootModule
    ⟨by simp only [neverJoinEnv]; omega, fun k => by simp only [neverJoinEnv]; omega⟩
    rfl 61 (by omega)

-- ===========================================================================
-- C4: an episode with no valid sample of some kind aborts silently
-- ===========================================================================

/-- C4: when the sampling pass does not deliver at least one valid soil
sample and at least one valid battery sample, the episode issues no
attribute write and never calls mark_sensors_read (the trace has no report
event and no markRead event), and it still goes to sleep with
last_read_time and sensor_read_count unchanged in the persistent state. -/
theorem failed_read_aborts_without_report (env : WakeEnv) (m : DeepSleepModule)
    (hC : ClockOk env) (hI : m.inited = true) (fuel : Nat) (hf : 61 ≤ fuel)
    (hv : ¬(0 < (validSoil env.samples).length
            ∧ 0 < (validBattVoltages env.samples).length)) :
    (∀ e ∈ (wake_cycle_task env m fuel).1, e.isReport = false ∧ e ≠ Event.markRead)
    ∧ ∃ r m2,
        wake_cycle_task env m fuel =
          ((runLoop env m fuel 0).1 ++ [Event.enterSleep], some (r, m2))
        ∧ r ≠ EndReason.reported
        ∧ m2.rtc.last_read_time = m.rtc.last_read_time
        ∧ m2.rtc.sensor_read_count = m.rtc.sensor_read_count := by
  have hok : (read_averaged_sensors env.samples).ok = false := by
    cases hb : (read_averaged_sensors env.samples).ok
    · rfl
    · exact absurd ((read_averaged_ok_iff env.samples).mp hb) hv
  constructor
  · exact episode_no_report_of_not_ok env m hok fuel
  · obtain ⟨r, m1, h2, henter, heq⟩ :=
      wake_episode_always_enters_sleep env m hC hI fuel hf
    have hst := runLoop_result_state env m fuel 0 r m1 h2
    rcases hst with ⟨_, _, hoktrue⟩ | ⟨hr, hm1⟩
    · rw [hok] at hoktrue
      cases hoktrue
    · refine ⟨r, { m1 with rtc := { m1.rtc with first_boot := false } },
             heq, hr, ?_, ?_⟩
      · rw [hm1]
      · rw [hm1]

/-- C4, witness: the all-sample-failure episode at a concrete trace event. -/
theorem failed_read_aborts_without_report_witness :
    Event.sensorRead.isReport = false ∧ Event.sensorRead ≠ Event.markRead :=
  (failed_read_aborts_without_report allFailEnv firstBootModule
      ⟨by simp only [allFailEnv]; omega, fun k => by simp only [allFailEnv]; omega⟩
      rfl 61 (by omega) (by decide)).1
    Event.sensorRead (by decide)

-- ===========================================================================
-- C3: battery averaging over exactly the valid samples
-- ===========================================================================

/-- C3: over any sampling pass, when K of the battery reads are valid with
K positive, the reported battery voltage is the arithmetic mean of exactly
those K voltages and the reported percentage the mean of their K
percentages; when K is zero, the wake episode issues no battery attribute
write at all. -/
theorem battery_average_semantics (ss : List SampleEnv) :
    (0 < (validBattVoltages ss).length →
      (read_averaged_sensors ss).voltage =
          (validBattVoltages ss).sum / ((validBattVoltages ss).length : ℚ)
      ∧ (read_averaged_sensors ss).percent =
          ((validBattVoltages ss).map voltage_to_percentage).sum /
            ((validBattVoltages ss).length : ℚ))
    ∧ ((validBattVoltages ss).length = 0 →
      ∀ env m fuel, env.samples = ss →
        ∀ e ∈ (wake_cycle_task env m fuel).1, e.isBatteryReport = false) := by
  constructor
  · intro hK
    rw [read_averaged_sensors_eq]
    simp [hK]
  · intro hK env m fuel hss e he
    have hok : (read_averaged_sensors env.samples).ok = false := by
      rw [hss]
      cases hb : (read_averaged_sensors ss).ok
      · rfl
      · exfalso
        have hiff := (read_averaged_ok_iff ss).mp hb
        omega
    have h1 := (episode_no_report_of_not_ok env m hok fuel e he).1
    cases e <;> simp_all [Event.isReport, Event.isBatteryReport]

/-- C3, witness: two valid battery samples of three give their mean, and a
zero-valid episode emits no battery attribute event. -/
theorem battery_average_semantics_witness :
    ((read_averaged_sensors battWitnessSamples).voltage =
        (validBattVoltages battWitnessSamples).sum /
          ((validBattVoltages battWitnessSamples).length : ℚ)
      ∧ (read_averaged_sensors battWitnessSamples).percent =
        ((validBattVoltages battWitnessSamples).map voltage_to_percentage).sum /
          ((validBattVoltages battWitnessSamples).length : ℚ))
    ∧ (Event.poll false).isBatteryReport = false :=
  ⟨(battery_average_semantics battWitnessSamples).1
      (by simp [battWitnessSamples, validBattVoltages, List.filterMap_cons]),
   (battery_average_semantics []).2 rfl neverJoinEnv firstBootModule 61 rfl
      (Event.poll false) (by decide)⟩

-- ===========================================================================
-- Trace-ordering helper lemmas
-- ===========================================================================

theorem readAfterJoin_nil : ReadAfterJoin [] := by
  intro i h
  simp at h

theorem readAfterJoin_cons_pollTrue (tr : List Event) :
    ReadAfterJoin (Event.poll true :: tr) := by
  intro i h hget
  cases i with
  | zero => simp at hget
  | succ i2 => exact ⟨0, by simp, by omega, rfl⟩

theorem readAfterJoin_cons (e : Event) (tr : List Event)
    (hne : e ≠ Event.sensorRead) (hx : ReadAfterJoin tr) :
    ReadAfterJoin (e :: tr) := by
  intro i h hget
  cases i with
  | zero => exact absurd hget hne
  | succ i2 =>
    have h2 : i2 < tr.length := Nat.lt_of_succ_lt_succ h
    obtain ⟨j, hj, hlt, hjeq⟩ := hx i2 h2 hget
    exact ⟨j + 1, Nat.succ_lt_succ hj, by omega, hjeq⟩

theorem reportAfterRead_nil : ReportAfterRead [] := by
  intro i h
  simp at h

theorem reportAfterRead_cons_read (tr : List Event) :
    ReportAfterRead (Event.sensorRead :: tr) := by
  intro i h hget
  cases i with
  | zero => simp [Event.isReport] at hget
  | succ i2 => exact ⟨0, by simp, by omega, rfl⟩

theorem reportAfterRead_cons (e : Event) (tr : List Event)
    (hne : e.isReport = false) (hx : ReportAfterRead tr) :
    ReportAfterRead (e :: tr) := by
  intro i h hget
  cases i with
  | zero =>
    have hh : e.isReport = true := hget
    rw [hne] at hh
    simp at hh
  | succ i2 =>
    have h2 : i2 < tr.length := Nat.lt_of_succ_lt_succ h
    obtain ⟨j, hj, hlt, hjeq⟩ := hx i2 h2 hget
    exact ⟨j + 1, Nat.succ_lt_succ hj, by omega, hjeq⟩

theorem runLoop_trace_readAfterJoin (env : WakeEnv) (m : DeepSleepModule) :
    ∀ fuel k tail, ReadAfterJoin tail →
      ReadAfterJoin ((runLoop env m fuel k).1 ++ tail) := by
  intro fuel
  induction fuel with
  | zero => intro k tail ht; simpa [runLoop] using ht
  | succ n ih =>
    intro k tail ht
    cases hj : env.joined k
    · by_cases ht1 : WAKE_TIME_MS ≤ env.tick k - env.start
      · rw [runLoop_step_unjoined_timeout env m n k hj ht1]
        exact readAfterJoin_cons (Event.poll false) tail (by decide) ht
      · by_cases hjt : MAX_JOIN_WAIT_MS ≤ env.tick k - env.start
        · rw [runLoop_step_unjoined_jointimeout env m n k hj ht1 hjt]
          exact readAfterJoin_cons (Event.poll false) tail (by decide) ht
        · rw [runLoop_step_unjoined_go env m n k hj ht1 hjt]
          exact readAfterJoin_cons (Event.poll false) _ (by decide)
            (ih (k + 1) tail ht)
    · cases hd : deep_sleep_should_read_sensors m
      · by_cases ht1 : WAKE_TIME_MS ≤ env.tick k - env.start
        · rw [runLoop_step_joined_notdue_timeout env m n k hj hd ht1]
          exact readAfterJoin_cons_pollTrue tail
        · rw [runLoop_step_joined_notdue_go env m n k hj hd ht1]
          exact readAfterJoin_cons_pollTrue _
      · cases hok : (read_averaged_sensors env.samples).ok
        · rw [runLoop_step_joined_due_fail env m n k hj hd hok]
          exact readAfterJoin_cons_pollTrue _
        · rw [runLoop_step_joined_due_ok env m n k hj hd hok]
          exact readAfterJoin_cons_pollTrue _

theorem runLoop_trace_reportAfterRead (env : WakeEnv) (m : DeepSleepModule) :
    ∀ fuel k tail, ReportAfterRead tail →
      ReportAfterRead ((runLoop env m fuel k).1 ++ tail) := by
  intro fuel
  induction fuel with
  | zero => intro k tail ht; simpa [runLoop] using ht
  | succ n ih =>
    intro k tail ht
    cases hj : env.joined k
    · by_cases ht1 : WAKE_TIME_MS ≤ env.tick k - env.start
      · rw [runLoop_step_unjoined_timeout env m n k hj ht1]
        exact reportAfterRead_cons (Event.poll false) tail rfl ht
      · by_cases hjt : MAX_JOIN_WAIT_MS ≤ env.tick k - env.start
        · rw [runLoop_step_unjoined_jointimeout env m n k hj ht1 hjt]
          exact reportAfterRead_cons (Event.poll false) tail rfl ht
        · rw [runLoop_step_unjoined_go env m n k hj ht1 hjt]
          exact reportAfterRead_cons (Event.poll false) _ rfl
            (ih (k + 1) tail ht)
    · cases hd : deep_sleep_should_read_sensors m
      · by_cases ht1 : WAKE_TIME_MS ≤ env.tick k - env.start
        · rw [runLoop_step_joined_notdue_timeout env m n k hj hd ht1]
          exact reportAfterRead_cons (Event.poll true) tail rfl ht
        · rw [runLoop_step_joined_notdue_go env m n k hj hd ht1]
          exact reportAfterRead_cons (Event.poll true) _ rfl
            (ih (k + 1) tail ht)
      · cases hok : (read_averaged_sensors env.samples).ok
        · rw [runLoop_step_joined_due_fail env m n k hj hd hok]
          exact reportAfterRead_cons (Event.poll true) _ rfl
            (reportAfterRead_cons_read _)
        · rw [runLoop_step_joined_due_ok env m n k hj hd hok]
          exact reportAfterRead_cons (Event.poll true) _ rfl
            (reportAfterRead_cons_read _)

-- ===========================================================================
-- C6: join observed before any read, reads before any report
-- ===========================================================================

/-- C6: in every wake episode trace, the sensor-sampling pass occurs only
strictly after a poll of the cached join flag that observed true, and every
attribute write occurs only strictly after the sampling pass has returned
(the sampling call is synchronous, so its event marks its completion).
This holds for every join-flag behavior, sampling outcome and fuel. -/
theorem join_observed_before_read (env : WakeEnv) (m : DeepSleepModule) (fuel : Nat) :
    ReadAfterJoin (wake_cycle_task env m fuel).1
    ∧ ReportAfterRead (wake_cycle_task env m fuel).1 := by
  rcases h2 : (runLoop env m fuel 0).2 with _ | rp
  · unfold wake_cycle_task
    simp only [h2]
    exact ⟨by simpa using runLoop_trace_readAfterJoin env m fuel 0 [] readAfterJoin_nil,
           by simpa using runLoop_trace_reportAfterRead env m fuel 0 [] reportAfterRead_nil⟩
  · rcases h3 : deep_sleep_enter rp.2 with _ | p
    · unfold wake_cycle_task
      simp only [h2, h3]
      exact ⟨by simpa using runLoop_trace_readAfterJoin env m fuel 0 [] readAfterJoin_nil,
             by simpa using runLoop_trace_reportAfterRead env m fuel 0 [] reportAfterRead_nil⟩
    · unfold wake_cycle_task
      simp only [h2, h3]
      exact ⟨runLoop_trace_readAfterJoin env m fuel 0 [Event.enterSleep]
               (readAfterJoin_cons Event.enterSleep [] (by decide) readAfterJoin_nil),
             runLoop_trace_reportAfterRead env m fuel 0 [Event.enterSleep]
               (reportAfterRead_cons Event.enterSleep [] rfl reportAfterRead_nil)⟩

/-- C6, witness: in the concrete all-failure first-boot episode the sampling
pass sits at index 1 and a true join poll precedes it. -/
theorem join_observed_before_read_witness :
    ∃ j, ∃ hj : j < (wake_cycle_task allFailEnv firstBootModule 61).1.length,
      j < 1 ∧ (wake_cycle_task allFailEnv firstBootModule 61).1.get ⟨j, hj⟩ =
        Event.poll true :=
  (join_observed_before_read allFailEnv firstBootModule 61).1 1 (by decide) (by decide)

-- ===========================================================================
-- C8: wire scalings of the reporting step
-- ===========================================================================

theorem truncQ_of_nonneg (q : ℚ) (h : 0 ≤ q) : truncQ q = ⌊q⌋ := if_pos h

theorem truncQ_toNat_le (q : ℚ) (n : Nat) (h0 : 0 ≤ q) (h : q ≤ (n : ℚ)) :
    (truncQ q).toNat ≤ n := by
  rw [truncQ_of_nonneg q h0]
  have h1 : ⌊q⌋ ≤ (n : ℤ) := by
    have h2 := Int.floor_le_floor h
    simpa using h2
  omega

theorem u16_of_q_eq (q : ℚ) (h0 : 0 ≤ q) (h1 : q ≤ 65535) :
    u16_of_q q = (truncQ q).toNat := by
  unfold u16_of_q
  apply Nat.mod_eq_of_lt
  have h2 : (truncQ q).toNat ≤ 65535 :=
    truncQ_toNat_le q 65535 h0 (by exact_mod_cast h1)
  omega

theorem i16_of_q_eq (q : ℚ) (h0 : -32768 < q) (h1 : q < 32768) :
    i16_of_q q = truncQ q := by
  have hb1 : -32768 < truncQ q := by
    unfold truncQ
    split_ifs with hq
    · have h2 : (0 : ℤ) ≤ ⌊q⌋ := Int.floor_nonneg.mpr hq
      omega
    · push_neg at hq
      have h2 : (⌊-q⌋ : ℚ) ≤ -q := Int.floor_le (-q)
      have h3 : (⌊-q⌋ : ℚ) < 32768 := by linarith
      have h4 : ⌊-q⌋ < (32768 : ℤ) := by exact_mod_cast h3
      omega
  have hb2 : truncQ q < 32768 := by
    unfold truncQ
    split_ifs with hq
    · have h2 : (⌊q⌋ : ℚ) ≤ q := Int.floor_le q
      have h3 : (⌊q⌋ : ℚ) < 32768 := by linarith
      exact_mod_cast h3
    · push_neg at hq
      have h2 : (0 : ℤ) ≤ ⌊-q⌋ := Int.floor_nonneg.mpr (by linarith)
      omega
  unfold i16_of_q
  rw [Int.emod_eq_of_lt (by omega) (by omega)]
  omega

theorem clamp_eq_min (x : Nat) : (if 10000 < x then 10000 else x) = min x 10000 := by
  split_ifs with h <;> omega

/-- C8: for every averaged reading in the defined ranges, the reporting
step publishes battery percentage as percent times 2 truncated to integer
(half-percent units in a u8), battery voltage as volts times 10 truncated
(decivolts in a u8), soil moisture as percent times 100 truncated and
clamped to 10000 (hundredths of a percent in a u16), and soil temperature
as degrees Celsius times 100 truncated (hundredths of a degree in an
i16), in this order. -/
theorem report_wire_scalings (ms t v p : ℚ)
    (hp0 : 0 ≤ p) (hp1 : p ≤ 100)
    (hv0 : 0 ≤ v) (hv1 : v * 10 ≤ 255)
    (hm0 : 0 ≤ ms) (hm1 : ms * 100 ≤ 65535)
    (ht0 : -32768 < t * 100) (ht1 : t * 100 < 32768) :
    report_sensor_data ms t v p =
      [Event.reportBattPercent (truncQ (p * 2)).toNat,
       Event.reportBattVoltage (truncQ (v * 10)).toNat,
       Event.reportMoisture (min (truncQ (ms * 100)).toNat 10000),
       Event.reportTemp (truncQ (t * 100))] := by
  have hbp : u16_of_q (p * 2) = (truncQ (p * 2)).toNat :=
    u16_of_q_eq _ (by linarith) (by linarith)
  have hbple : (truncQ (p * 2)).toNat ≤ 200 :=
    truncQ_toNat_le _ 200 (by linarith) (by push_cast; linarith)
  have hbv : u16_of_q (v * 10) = (truncQ (v * 10)).toNat :=
    u16_of_q_eq _ (by linarith) (by linarith)
  have hbvle : (truncQ (v * 10)).toNat ≤ 255 :=
    truncQ_toNat_le _ 255 (by linarith) (by push_cast; linarith)
  have hm : u16_of_q (ms * 100) = (truncQ (ms * 100)).toNat :=
    u16_of_q_eq _ (by linarith) (by linarith)
  have htv : i16_of_q (t * 100) = truncQ (t * 100) := i16_of_q_eq _ ht0 ht1
  simp only [report_sensor_data]
  rw [hbp, hbv, hm, htv, if_pos hbple, if_pos hbvle, clamp_eq_min]
  simp

/-- C8, witness at a concrete averaged reading: 47 percent battery at
4.1 V, 27.5 percent moisture, -5.25 degrees Celsius. -/
theorem report_wire_scalings_witness :
    report_sensor_data (55 / 2) (-21 / 4) (41 / 10) 47 =
      [Event.reportBattPercent (truncQ ((47 : ℚ) * 2)).toNat,
       Event.reportBattVoltage (truncQ ((41 / 10 : ℚ) * 10)).toNat,
       Event.reportMoisture (min (truncQ ((55 / 2 : ℚ) * 100)).toNat 10000),
       Event.reportTemp (truncQ ((-21 / 4 : ℚ) * 100))] :=
  report_wire_scalings (55 / 2) (-21 / 4) (41 / 10) 47
    (by norm_num) (by norm_num) (by norm_num) (by norm_num)
    (by norm_num) (by norm_num) (by norm_num) (by norm_num)
